import Mathlib

/-!
Verification of the finance_js utility library (src/index.ts).

The source manipulates JavaScript numbers and renders results with
`Number.prototype.toFixed(2)`.  We embed the arithmetic over exact
rationals (`ℚ`).  Division is the only operation in the source that can
produce the IEEE special values `Infinity`, `-Infinity` and `NaN`
(all inputs are ordinary finite numbers), so division results live in a
type `JsNum` of rationals extended with those three values, and the
remaining operations applied after a division are lifted to `JsNum`
following the IEEE-754 rules used by JavaScript.

`toFixed(2)` is modelled by the ECMAScript algorithm: for finite x,
take the sign, then the integer n closest to |x|*100 (preferring the
larger n on ties, i.e. n = ⌊|x|*100 + 1/2⌋), and print n split into
integer and two-digit fractional part; NaN prints "NaN" and the
infinities print "Infinity" / "-Infinity".

Durations (years, months) are modelled as natural numbers, so that the
source's `Math.pow` calls are natural-number powers.
-/

/-- Two-digit rendering of a remainder `k < 100`. -/
def pad2 (k : ℕ) : String := if k < 10 then "0" ++ toString k else toString k

/-- The ECMAScript `toFixed(2)` on a finite (exact rational) value. -/
def toFixed2 (x : ℚ) : String :=
  (if x < 0 then "-" else "") ++
    toString ((⌊|x| * 100 + 1/2⌋).toNat / 100) ++ "." ++ pad2 ((⌊|x| * 100 + 1/2⌋).toNat % 100)

/-- The numeric value denoted by the string `toFixed2 x` (the value after
rounding to 2 decimals, used to compose formatted outputs with further
computation). -/
def round2v (x : ℚ) : ℚ :=
  (if x < 0 then -(((⌊|x| * 100 + 1/2⌋).toNat : ℚ)) else ((⌊|x| * 100 + 1/2⌋).toNat : ℚ)) / 100

/-- A JavaScript number arising in this library: an exact finite value,
or one of the special values produced by dividing by zero. -/
inductive JsNum where
  | fin (q : ℚ)
  | posInf
  | negInf
  | nan
deriving DecidableEq

/-- JavaScript division of two finite numbers: `a / 0` is `NaN` when
`a = 0` and a signed infinity otherwise (the literal zero denominators in
this library are positive zeros). -/
def jsDiv (a b : ℚ) : JsNum :=
  if b = 0 then (if 0 < a then JsNum.posInf else if a < 0 then JsNum.negInf else JsNum.nan)
  else JsNum.fin (a / b)

/-- Multiplication of a JavaScript number by a finite number. -/
def JsNum.mulq : JsNum → ℚ → JsNum
  | JsNum.fin a, c => JsNum.fin (a * c)
  | JsNum.posInf, c => if 0 < c then JsNum.posInf else if c < 0 then JsNum.negInf else JsNum.nan
  | JsNum.negInf, c => if 0 < c then JsNum.negInf else if c < 0 then JsNum.posInf else JsNum.nan
  | JsNum.nan, _ => JsNum.nan

/-- Subtraction of a finite number from a JavaScript number. -/
def JsNum.subq : JsNum → ℚ → JsNum
  | JsNum.fin a, c => JsNum.fin (a - c)
  | JsNum.posInf, _ => JsNum.posInf
  | JsNum.negInf, _ => JsNum.negInf
  | JsNum.nan, _ => JsNum.nan

/-- `toFixed(2)` on a JavaScript number: the special values render as
their `ToString` images per the ECMAScript algorithm. -/
def jsToFixed2 : JsNum → String
  | JsNum.fin q => toFixed2 q
  | JsNum.posInf => "Infinity"
  | JsNum.negInf => "-Infinity"
  | JsNum.nan => "NaN"

/-- `calculateDTI` from src/index.ts:
`(totalMonthlyDebtPayments / totalMonthlyIncome * 100).toFixed(2)`. -/
def calculateDTI (totalMonthlyDebtPayments totalMonthlyIncome : ℚ) : String :=
  jsToFixed2 ((jsDiv totalMonthlyDebtPayments totalMonthlyIncome).mulq 100)

/-- A debt record as consumed by `debtSnowball`: `{name, balance}`. -/
structure SnowballDebt where
  name : String
  balance : ℚ
deriving DecidableEq

/-- A debt record as consumed by `debtAvalanche`:
`{name, balance, interestRate}`. -/
structure AvalancheDebt where
  name : String
  balance : ℚ
  interestRate : ℚ
deriving DecidableEq

instance : DecidableRel (fun (a b : SnowballDebt) => a.balance ≤ b.balance) :=
  fun a b => inferInstanceAs (Decidable (a.balance ≤ b.balance))

instance : DecidableRel (fun (a b : AvalancheDebt) => b.interestRate ≤ a.interestRate) :=
  fun a b => inferInstanceAs (Decidable (b.interestRate ≤ a.interestRate))

instance : IsTotal SnowballDebt (fun a b => a.balance ≤ b.balance) :=
  ⟨fun a b => le_total a.balance b.balance⟩

instance : IsTrans SnowballDebt (fun a b => a.balance ≤ b.balance) :=
  ⟨fun _ _ _ h1 h2 => le_trans h1 h2⟩

instance : IsTotal AvalancheDebt (fun a b => b.interestRate ≤ a.interestRate) :=
  ⟨fun a b => le_total b.interestRate a.interestRate⟩

instance : IsTrans AvalancheDebt (fun a b => b.interestRate ≤ a.interestRate) :=
  ⟨fun _ _ _ h1 h2 => le_trans h2 h1⟩

/-- `debtSnowball` from src/index.ts: `debts.sort((a, b) => a.balance - b.balance)`.
ECMAScript `Array.prototype.sort` is a stable sort consistent with the
comparator, i.e. the unique stable reordering that is ascending in
`balance`; insertion sort realises exactly that reordering. -/
def debtSnowball (debts : List SnowballDebt) : List SnowballDebt :=
  List.insertionSort (fun a b => a.balance ≤ b.balance) debts

/-- `debtAvalanche` from src/index.ts:
`debts.sort((a, b) => b.interestRate - a.interestRate)`, the stable
reordering that is descending in `interestRate`. -/
def debtAvalanche (debts : List AvalancheDebt) : List AvalancheDebt :=
  List.insertionSort (fun a b => b.interestRate ≤ a.interestRate) debts

/-- `calculateEMI` from src/index.ts. -/
def calculateEMI (principal annualInterestRate : ℚ) (tenureInYears : ℕ) : String :=
  let monthlyInterestRate := annualInterestRate / 12 / 100
  let totalMonths := tenureInYears * 12
  jsToFixed2 (jsDiv (principal * monthlyInterestRate * (1 + monthlyInterestRate) ^ totalMonths)
    ((1 + monthlyInterestRate) ^ totalMonths - 1))

/-- `lumpSumReturns` from src/index.ts. -/
def lumpSumReturns (principalAmount : ℚ) (durationInYears : ℕ) (expectedRoi : ℚ) : String :=
  toFixed2 (principalAmount * (1 + expectedRoi) ^ durationInYears)

/-- `lumpSumReturnsWithInflation` from src/index.ts
(`inflationRate` defaults to `0.06`). -/
def lumpSumReturnsWithInflation (principalAmount : ℚ) (durationInYears : ℕ)
    (expectedRoi : ℚ) (inflationRate : optParam ℚ (6/100)) : String :=
  toFixed2 (principalAmount * (1 + expectedRoi - inflationRate) ^ durationInYears)

/-- One iteration of the `sipReturns` loop body:
`totalAmount += monthlyPayment; totalAmount *= (1 + expectedRoi / 12)`. -/
def sipStep (monthlyPayment expectedRoi : ℚ) (totalAmount : ℚ) : ℚ :=
  (totalAmount + monthlyPayment) * (1 + expectedRoi / 12)

/-- The running total of the `sipReturns` loop after `months` iterations,
starting from `0`. -/
def sipTotal (monthlyPayment : ℚ) (months : ℕ) (expectedRoi : ℚ) : ℚ :=
  (sipStep monthlyPayment expectedRoi)^[months] 0

/-- `sipReturns` from src/index.ts. -/
def sipReturns (monthlyPayment : ℚ) (months : ℕ) (expectedRoi : ℚ) : String :=
  toFixed2 (sipTotal monthlyPayment months expectedRoi)

/-- `sipReturnsWithInflation` from src/index.ts (`inflationRate` defaults
to `0.06`); its loop body multiplies by `1 + (expectedRoi - inflationRate)/12`. -/
def sipReturnsWithInflation (monthlyPayment : ℚ) (months : ℕ) (expectedRoi : ℚ)
    (inflationRate : optParam ℚ (6/100)) : String :=
  toFixed2 ((fun totalAmount =>
    (totalAmount + monthlyPayment) * (1 + (expectedRoi - inflationRate) / 12))^[months] 0)

/-- `futureValueWithoutInflation` from src/index.ts. -/
def futureValueWithoutInflation (principalAmount : ℚ) (durationInYears : ℕ)
    (expectedRoi : ℚ) : String :=
  toFixed2 (principalAmount * (1 + expectedRoi) ^ durationInYears)

/-- `futureValueWithInflation` from src/index.ts (`inflationRate` defaults
to `0.06`). -/
def futureValueWithInflation (principalAmount : ℚ) (durationInYears : ℕ)
    (expectedRoi : ℚ) (inflationRate : optParam ℚ (6/100)) : String :=
  toFixed2 (principalAmount * (1 + expectedRoi - inflationRate) ^ durationInYears)

/-- `presentValueWithoutInflation` from src/index.ts:
`futureAmount / Math.pow(1 + expectedRoi, durationInYears)` formatted. -/
def presentValueWithoutInflation (futureAmount : ℚ) (durationInYears : ℕ)
    (expectedRoi : ℚ) : String :=
  jsToFixed2 (jsDiv futureAmount ((1 + expectedRoi) ^ durationInYears))

/-- `presentValueWithInflation` from src/index.ts (`inflationRate`
defaults to `0.06`). -/
def presentValueWithInflation (futureAmount : ℚ) (durationInYears : ℕ)
    (expectedRoi : ℚ) (inflationRate : optParam ℚ (6/100)) : String :=
  jsToFixed2 (jsDiv futureAmount ((1 + expectedRoi - inflationRate) ^ durationInYears))

/-- `retirementSavingsGoal` from src/index.ts. -/
def retirementSavingsGoal (monthlyExpenses : ℚ) (yearsUntilRetirement : ℕ)
    (annualReturnRate currentSavings : ℚ) : String :=
  let months := yearsUntilRetirement * 12
  let monthlyReturnRate := annualReturnRate / 12 / 100
  jsToFixed2 ((((jsDiv ((1 + monthlyReturnRate) ^ months - 1) monthlyReturnRate).mulq
    monthlyExpenses).mulq (1 + monthlyReturnRate)).subq currentSavings)

/-- `safeWithdrawalRate` from src/index.ts; `retirementYears` appears in
the signature but not in the body, exactly as in the source. -/
def safeWithdrawalRate (retirementSavings retirementYears annualExpenses : ℚ) : String :=
  jsToFixed2 ((jsDiv annualExpenses retirementSavings).mulq 100)

/-- Rendering lemma: `toFixed2` on a non-negative value with known
rounded-cents count. -/
theorem toFixed2_of_nonneg (x : ℚ) (hx : ¬ x < 0) (n : ℕ)
    (h : ⌊|x| * 100 + 1/2⌋ = (n : ℤ)) :
    toFixed2 x = toString (n / 100) ++ "." ++ pad2 (n % 100) := by
  unfold toFixed2
  rw [if_neg hx, h, Int.toNat_natCast]
  rfl

/-- Rendering lemma: `toFixed2` on a negative value with known
rounded-cents count. -/
theorem toFixed2_of_neg (x : ℚ) (hx : x < 0) (n : ℕ)
    (h : ⌊|x| * 100 + 1/2⌋ = (n : ℤ)) :
    toFixed2 x = "-" ++ toString (n / 100) ++ "." ++ pad2 (n % 100) := by
  unfold toFixed2
  rw [if_pos hx, h, Int.toNat_natCast]

/-- The value read back from a 2-decimal rendering differs from the
original by at most half a cent. -/
theorem abs_round2v_sub_le (x : ℚ) : |round2v x - x| ≤ 1/200 := by
  have key : ∀ y : ℚ, 0 ≤ y → |(((⌊y * 100 + 1/2⌋).toNat : ℚ)) / 100 - y| ≤ 1/200 := by
    intro y hy
    have h0 : (0 : ℤ) ≤ ⌊y * 100 + 1/2⌋ := Int.floor_nonneg.2 (by positivity)
    have h1 : ((⌊y * 100 + 1/2⌋ : ℤ) : ℚ) ≤ y * 100 + 1/2 := Int.floor_le _
    have h2 : y * 100 + 1/2 < (⌊y * 100 + 1/2⌋ : ℤ) + 1 := Int.lt_floor_add_one _
    have hcast : (((⌊y * 100 + 1/2⌋).toNat : ℚ)) = ((⌊y * 100 + 1/2⌋ : ℤ) : ℚ) := by
      exact_mod_cast congrArg (fun z : ℤ => (z : ℚ)) (Int.toNat_of_nonneg h0)
    rw [hcast, abs_le]
    constructor <;> linarith
  rcases lt_or_le x 0 with hx | hx
  · rw [round2v, if_pos hx, abs_of_neg hx]
    have hflip : -(((⌊-x * 100 + 1/2⌋).toNat : ℚ)) / 100 - x
        = -((((⌊-x * 100 + 1/2⌋).toNat : ℚ)) / 100 - (-x)) := by ring
    rw [hflip, abs_neg]
    exact key (-x) (by linarith)
  · rw [round2v, if_neg (not_lt.2 hx), abs_of_nonneg hx]
    exact key x hx

/-- Inserting `x` into `l` with `orderedInsert` does not change the
`p`-filtered subsequence relative to consing, provided all elements
satisfying `p` are mutually related by `r` (so `x` never jumps over an
element with the same key). -/
theorem filter_orderedInsert {α : Type} (r : α → α → Prop) [DecidableRel r] (p : α → Bool)
    (hpr : ∀ a b, p a = true → p b = true → r a b) (x : α) (l : List α) :
    (List.orderedInsert r x l).filter p = ((x :: l).filter p) := by
  induction l with
  | nil => rfl
  | cons b l ih =>
    rw [List.orderedInsert]
    by_cases hrb : r x b
    · rw [if_pos hrb]
    · rw [if_neg hrb]
      cases hpx : p x with
      | true =>
        have hpb : p b = false := by
          cases hb : p b with
          | true => exact absurd (hpr x b hpx hb) hrb
          | false => rfl
        simp [List.filter_cons, hpx, hpb, ih]
      | false =>
        simp [List.filter_cons, hpx, ih]

/-- Insertion sort is stable in the sense that it does not change the
subsequence of elements sharing one key. -/
theorem filter_insertionSort {α : Type} (r : α → α → Prop) [DecidableRel r] (p : α → Bool)
    (hpr : ∀ a b, p a = true → p b = true → r a b) (l : List α) :
    (List.insertionSort r l).filter p = l.filter p := by
  induction l with
  | nil => rfl
  | cons a l ih =>
    rw [List.insertionSort, filter_orderedInsert r p hpr, List.filter_cons, List.filter_cons, ih]

/-- C1. `sipReturns(x, m, r)` iterates `m` periods from total `0`, each
period first adding the contribution `x` and then multiplying by
`1 + r/12` (deposit-then-compound), and formats the result to 2 decimals;
`sipReturns(x, 0, r) = "0.00"` for all `x, r`, and one period on 100 at
roi 0.12 yields "101.00" (compound-then-deposit would yield "100.00"). -/
theorem sipReturns_spec : ∀ (x r : ℚ) (m : ℕ),
    sipTotal x 0 r = 0
  ∧ sipTotal x (m + 1) r = (sipTotal x m r + x) * (1 + r / 12)
  ∧ sipReturns x m r = toFixed2 (sipTotal x m r)
  ∧ sipReturns x 0 r = "0.00"
  ∧ sipReturns 100 1 (12/100) = "101.00" := by
  intro x r m
  refine ⟨rfl, ?_, rfl, ?_, ?_⟩
  · rw [sipTotal, sipTotal, Function.iterate_succ_apply']
    rfl
  · show toFixed2 (sipTotal x 0 r) = "0.00"
    rw [show sipTotal x 0 r = 0 from rfl,
      toFixed2_of_nonneg 0 (by norm_num) 0 (by norm_num)]
    decide
  · show toFixed2 (sipTotal 100 1 (12/100)) = "101.00"
    rw [show sipTotal 100 1 (12/100) = 101 by
      rw [sipTotal, Function.iterate_one, sipStep]; norm_num]
    rw [toFixed2_of_nonneg 101 (by norm_num) 10100 (by norm_num)]
    decide

/-- C4. `lumpSumReturns` and `futureValueWithoutInflation` agree on all
inputs and compute `amount * (1 + roi) ^ years` to 2 decimals;
`lumpSumReturnsWithInflation` and `futureValueWithInflation` agree on
all inputs and compute `amount * (1 + roi - inflationRate) ^ years` to
2 decimals, with `inflationRate` defaulting to `0.06` when omitted. -/
theorem lumpSum_futureValue_agree : ∀ (p : ℚ) (y : ℕ) (r i : ℚ),
    lumpSumReturns p y r = futureValueWithoutInflation p y r
  ∧ lumpSumReturns p y r = toFixed2 (p * (1 + r) ^ y)
  ∧ lumpSumReturnsWithInflation p y r i = futureValueWithInflation p y r i
  ∧ lumpSumReturnsWithInflation p y r i = toFixed2 (p * (1 + r - i) ^ y)
  ∧ lumpSumReturnsWithInflation p y r = lumpSumReturnsWithInflation p y r (6/100)
  ∧ futureValueWithInflation p y r = futureValueWithInflation p y r (6/100) := by
  intro p y r i
  exact ⟨rfl, rfl, rfl, rfl, rfl, rfl⟩

/-- C10. `sipReturnsWithInflation(x, m, r, i)` returns exactly the same
string as `sipReturns(x, m, r - i)`, and with the argument omitted the
default `0.06` is used: it equals `sipReturns(x, m, r - 0.06)`. -/
theorem sipReturnsWithInflation_shift : ∀ (x : ℚ) (m : ℕ) (r i : ℚ),
    sipReturnsWithInflation x m r i = sipReturns x m (r - i)
  ∧ sipReturnsWithInflation x m r = sipReturns x m (r - 6/100) := by
  intro x m r i
  exact ⟨rfl, rfl⟩

/-- C8. `debtSnowball` returns its input sorted ascending by `balance`
and `debtAvalanche` returns its input sorted descending by
`interestRate`; both outputs are permutations of the input, both sorts
are stable (the subsequence at any fixed key is unchanged), and the
empty list maps to the empty list. -/
theorem debt_sorts_spec : ∀ (xs : List SnowballDebt) (ys : List AvalancheDebt),
    List.Sorted (fun a b => a.balance ≤ b.balance) (debtSnowball xs)
  ∧ (debtSnowball xs).Perm xs
  ∧ (∀ q : ℚ, (debtSnowball xs).filter (fun d => decide (d.balance = q))
      = xs.filter (fun d => decide (d.balance = q)))
  ∧ debtSnowball ([] : List SnowballDebt) = []
  ∧ List.Sorted (fun a b => b.interestRate ≤ a.interestRate) (debtAvalanche ys)
  ∧ (debtAvalanche ys).Perm ys
  ∧ (∀ q : ℚ, (debtAvalanche ys).filter (fun d => decide (d.interestRate = q))
      = ys.filter (fun d => decide (d.interestRate = q)))
  ∧ debtAvalanche ([] : List AvalancheDebt) = [] := by
  intro xs ys
  refine ⟨List.sorted_insertionSort _ xs, List.perm_insertionSort _ xs, ?_, rfl,
    List.sorted_insertionSort _ ys, List.perm_insertionSort _ ys, ?_, rfl⟩
  · intro q
    refine filter_insertionSort _ _ (fun a b ha hb => ?_) xs
    rw [of_decide_eq_true ha, of_decide_eq_true hb]
  · intro q
    refine filter_insertionSort _ _ (fun a b ha hb => ?_) ys
    rw [of_decide_eq_true ha, of_decide_eq_true hb]

/-- C9. Every modelled function is deterministic: two calls on identical
inputs return identical values; the two sorts are additionally
idempotent, i.e. sorting an already-sorted list returns it unchanged. -/
theorem functions_deterministic_sorts_idempotent :
    (∀ d i : ℚ, calculateDTI d i = calculateDTI d i)
  ∧ (∀ xs : List SnowballDebt, debtSnowball xs = debtSnowball xs)
  ∧ (∀ ys : List AvalancheDebt, debtAvalanche ys = debtAvalanche ys)
  ∧ (∀ (P a : ℚ) (y : ℕ), calculateEMI P a y = calculateEMI P a y)
  ∧ (∀ (p : ℚ) (y : ℕ) (r i : ℚ),
        lumpSumReturns p y r = lumpSumReturns p y r
      ∧ lumpSumReturnsWithInflation p y r i = lumpSumReturnsWithInflation p y r i
      ∧ futureValueWithoutInflation p y r = futureValueWithoutInflation p y r
      ∧ futureValueWithInflation p y r i = futureValueWithInflation p y r i
      ∧ presentValueWithoutInflation p y r = presentValueWithoutInflation p y r
      ∧ presentValueWithInflation p y r i = presentValueWithInflation p y r i)
  ∧ (∀ (x : ℚ) (m : ℕ) (r i : ℚ),
        sipReturns x m r = sipReturns x m r
      ∧ sipReturnsWithInflation x m r i = sipReturnsWithInflation x m r i)
  ∧ (∀ (pmt : ℚ) (y : ℕ) (p s : ℚ),
        retirementSavingsGoal pmt y p s = retirementSavingsGoal pmt y p s)
  ∧ (∀ s y e : ℚ, safeWithdrawalRate s y e = safeWithdrawalRate s y e)
  ∧ (∀ xs : List SnowballDebt, debtSnowball (debtSnowball xs) = debtSnowball xs)
  ∧ (∀ ys : List AvalancheDebt, debtAvalanche (debtAvalanche ys) = debtAvalanche ys) := by
  refine ⟨fun _ _ => rfl, fun _ => rfl, fun _ => rfl, fun _ _ _ => rfl,
    fun _ _ _ _ => ⟨rfl, rfl, rfl, rfl, rfl, rfl⟩, fun _ _ _ _ => ⟨rfl, rfl⟩,
    fun _ _ _ _ => rfl, fun _ _ _ => rfl, ?_, ?_⟩
  · intro xs
    exact List.Sorted.insertionSort_eq (List.sorted_insertionSort _ xs)
  · intro ys
    exact List.Sorted.insertionSort_eq (List.sorted_insertionSort _ ys)

/-- C7. `calculateDTI(d, i)` returns `d / i * 100` formatted to 2
decimals (in particular `calculateDTI(1500, 5000) = "30.00"`), and when
`i = 0` the division-by-zero result propagates visibly to the output as
`"Infinity"`, `"-Infinity"` or `"NaN"` depending on the sign of `d`. -/
theorem calculateDTI_spec : ∀ d i : ℚ,
    (i ≠ 0 → calculateDTI d i = toFixed2 (d / i * 100))
  ∧ calculateDTI 1500 5000 = "30.00"
  ∧ calculateDTI d 0 = (if 0 < d then "Infinity" else if d < 0 then "-Infinity" else "NaN") := by
  intro d i
  refine ⟨?_, ?_, ?_⟩
  · intro hi
    simp [calculateDTI, jsDiv, hi, JsNum.mulq, jsToFixed2]
  · have h : calculateDTI 1500 5000 = toFixed2 (1500 / 5000 * 100) := by
      norm_num [calculateDTI, jsDiv, JsNum.mulq, jsToFixed2]
    rw [h, show (1500 : ℚ) / 5000 * 100 = 30 by norm_num,
      toFixed2_of_nonneg 30 (by norm_num) 3000 (by norm_num)]
    decide
  · rcases lt_trichotomy d 0 with hd | hd | hd
    · have h1 : ¬ (0 : ℚ) < d := not_lt.mpr hd.le
      norm_num [calculateDTI, jsDiv, JsNum.mulq, jsToFixed2, h1, hd]
    · subst hd
      norm_num [calculateDTI, jsDiv, JsNum.mulq, jsToFixed2]
    · have h1 : ¬ d < (0 : ℚ) := not_lt.mpr hd.le
      norm_num [calculateDTI, jsDiv, JsNum.mulq, jsToFixed2, h1, hd]

/-- C6. `safeWithdrawalRate(s, years, e)` ignores its `retirementYears`
argument: any two values of it give the same output; the result is
always `e / s * 100` formatted to 2 decimals, and
`safeWithdrawalRate(1000000, 30, 40000) = "4.00"`. -/
theorem safeWithdrawalRate_spec : ∀ s y1 y2 e : ℚ,
    safeWithdrawalRate s y1 e = safeWithdrawalRate s y2 e
  ∧ (s ≠ 0 → safeWithdrawalRate s y1 e = toFixed2 (e / s * 100))
  ∧ safeWithdrawalRate 1000000 30 40000 = "4.00" := by
  intro s y1 y2 e
  refine ⟨rfl, ?_, ?_⟩
  · intro hs
    simp [safeWithdrawalRate, jsDiv, hs, JsNum.mulq, jsToFixed2]
  · have h : safeWithdrawalRate 1000000 30 40000 = toFixed2 (40000 / 1000000 * 100) := by
      norm_num [safeWithdrawalRate, jsDiv, JsNum.mulq, jsToFixed2]
    rw [h, show (40000 : ℚ) / 1000000 * 100 = 4 by norm_num,
      toFixed2_of_nonneg 4 (by norm_num) 400 (by norm_num)]
    decide

/-- C3. `calculateEMI(P, a, y)` uses the monthly rate `r = a/12/100` and
`n = y*12` periods and returns `P*r*(1+r)^n / ((1+r)^n - 1)` formatted
to 2 decimals; at `a = 0` (so `r = 0`) the formula divides zero by zero
and the output is `"NaN"`, not the straight-line `P/n` (e.g. for
`P = 1200, y = 1` the straight-line value would be `"100.00"`). -/
theorem calculateEMI_spec : ∀ (P a : ℚ) (y : ℕ),
    (((1 + a/12/100) ^ (y*12) - 1) ≠ 0 →
      calculateEMI P a y
        = toFixed2 (P * (a/12/100) * (1 + a/12/100) ^ (y*12) / ((1 + a/12/100) ^ (y*12) - 1)))
  ∧ calculateEMI P 0 y = "NaN"
  ∧ calculateEMI 1200 0 1 ≠ toFixed2 ((1200 : ℚ) / 12) := by
  intro P a y
  refine ⟨?_, ?_, ?_⟩
  · intro h
    simp [calculateEMI, jsDiv, h, jsToFixed2]
  · norm_num [calculateEMI, jsDiv, jsToFixed2]
  · have h2 : calculateEMI 1200 0 1 = "NaN" := by
      norm_num [calculateEMI, jsDiv, jsToFixed2]
    rw [h2, toFixed2_of_nonneg ((1200 : ℚ) / 12) (by norm_num) 10000 (by norm_num [abs_div])]
    decide

/-- C2. `retirementSavingsGoal(pmt, y, p, s)` computes `n = y*12` months
and monthly rate `r = p/12/100`, forms the annuity-due future value
`pmt * ((1+r)^n - 1)/r * (1+r)`, and returns it minus `s`, formatted to
2 decimals; the result can be negative when current savings exceed the
goal (e.g. `retirementSavingsGoal(100, 0, 5, 100) = "-100.00"`). -/
theorem retirementSavingsGoal_spec : ∀ (pmt s : ℚ) (y : ℕ) (p : ℚ),
    (p ≠ 0 →
      retirementSavingsGoal pmt y p s
        = toFixed2 (pmt * (((1 + p/12/100) ^ (y*12) - 1) / (p/12/100)) * (1 + p/12/100) - s))
  ∧ retirementSavingsGoal 100 0 5 100 = "-100.00" := by
  intro pmt s y p
  refine ⟨?_, ?_⟩
  · intro hp
    have hr : p/12/100 ≠ 0 := div_ne_zero (div_ne_zero hp (by norm_num)) (by norm_num)
    simp only [retirementSavingsGoal, jsDiv, if_neg hr, JsNum.mulq, JsNum.subq, jsToFixed2]
    congr 1
    ring
  · have hval : retirementSavingsGoal 100 0 5 100 = toFixed2 (-100) := by
      norm_num [retirementSavingsGoal, jsDiv, JsNum.mulq, JsNum.subq, jsToFixed2]
    rw [hval, toFixed2_of_neg (-100) (by norm_num) 10000 (by norm_num)]
    decide

/-- C5. Round trip: for `r > -1`, feeding the 2-decimal-rounded output
of `futureValueWithoutInflation(p, y, r)` (whose numeric value is
`round2v (p*(1+r)^y)`) back into `presentValueWithoutInflation` returns
`p` up to the rounding tolerances: the fed-back value is within half a
cent of the exact future value, and the final output is the 2-decimal
rendering of `p` plus that discounted sub-half-cent error. -/
theorem presentValue_roundTrip (p : ℚ) (y : ℕ) (r : ℚ) (h : -1 < r) :
    |round2v (p * (1 + r) ^ y) - p * (1 + r) ^ y| ≤ 1/200
  ∧ presentValueWithoutInflation (round2v (p * (1 + r) ^ y)) y r
      = toFixed2 (p + (round2v (p * (1 + r) ^ y) - p * (1 + r) ^ y) / (1 + r) ^ y) := by
  have hpow : (0 : ℚ) < (1 + r) ^ y := pow_pos (by linarith) y
  refine ⟨abs_round2v_sub_le _, ?_⟩
  simp only [presentValueWithoutInflation, jsDiv, if_neg (ne_of_gt hpow), jsToFixed2]
  congr 1
  field_simp

/-- Witness for C2 at `pmt = 100, y = 1, p = 5, s = 0`. -/
theorem retirementSavingsGoal_spec_witness :
    ((5 : ℚ) ≠ 0)
  ∧ retirementSavingsGoal 100 1 5 0
      = toFixed2 (100 * (((1 + (5:ℚ)/12/100) ^ (1*12) - 1) / ((5:ℚ)/12/100)) * (1 + (5:ℚ)/12/100) - 0) :=
  ⟨by norm_num, (retirementSavingsGoal_spec 100 0 1 5).1 (by norm_num)⟩

/-- Witness for C3 at `P = 100000, a = 12, y = 1`. -/
theorem calculateEMI_spec_witness :
    (((1 + (12:ℚ)/12/100) ^ (1*12) - 1) ≠ 0)
  ∧ calculateEMI 100000 12 1
      = toFixed2 (100000 * ((12:ℚ)/12/100) * (1 + (12:ℚ)/12/100) ^ (1*12)
          / ((1 + (12:ℚ)/12/100) ^ (1*12) - 1)) :=
  ⟨by norm_num, (calculateEMI_spec 100000 12 1).1 (by norm_num)⟩

/-- Witness for C5 at `p = 100, y = 2, r = 1/10`. -/
theorem presentValue_roundTrip_witness :
    ((-1 : ℚ) < 1/10)
  ∧ (|round2v ((100 : ℚ) * (1 + 1/10) ^ 2) - (100 : ℚ) * (1 + 1/10) ^ 2| ≤ 1/200
  ∧ presentValueWithoutInflation (round2v ((100 : ℚ) * (1 + 1/10) ^ 2)) 2 (1/10)
      = toFixed2 (100 + (round2v ((100 : ℚ) * (1 + 1/10) ^ 2) - (100 : ℚ) * (1 + 1/10) ^ 2) / (1 + 1/10) ^ 2)) :=
  ⟨by norm_num, presentValue_roundTrip 100 2 (1/10) (by norm_num)⟩

/-- Witness for C6 at `s = 1000, y1 = 30, y2 = 7, e = 50`. -/
theorem safeWithdrawalRate_spec_witness :
    ((1000 : ℚ) ≠ 0) ∧ safeWithdrawalRate 1000 30 50 = toFixed2 (50 / 1000 * 100) :=
  ⟨by norm_num, (safeWithdrawalRate_spec 1000 30 7 50).2.1 (by norm_num)⟩

/-- Witness for C7 at `d = 1500, i = 5000`. -/
theorem calculateDTI_spec_witness :
    ((5000 : ℚ) ≠ 0) ∧ calculateDTI 1500 5000 = toFixed2 (1500 / 5000 * 100) :=
  ⟨by norm_num, (calculateDTI_spec 1500 5000).1 (by norm_num)⟩
